import Mathlib

/-!
Verification development for the POM introspection procedure of
oracle-tools-gui (`src/utils/pom.py`, `src/oracle-tools-gui.py`).

The embedding models:
  * the character-by-character stdout scanner of `determine_POM_settings`
    (the `for ch in stdout` loop with its two regular-expression patterns),
  * the profile-set classification against the Apex and database bundles,
  * the config-directory resolution (override precedence and the
    backslash-escape normalization done by `str.replace`),
  * the subdirectory listing and the credential checks of `process_POM`,
    with every failure path (including the `KeyError` that Python raises
    while formatting the zero-subdirectory assertion message when the
    property mapping has no `db.config.dir` key) made explicit in an
    `Except` error type.

Python dictionaries are modelled as association lists with in-place
overwrite (`setProp`), Python sets as insertion-ordered duplicate-free
lists (`addProfile`), and the filesystem as a function from a path to
`Option` of the list of subdirectory names (`none` models `iterdir`
raising, which the source swallows).
-/

namespace OracleToolsGui

/-- Character class `[a-zA-Z0-9_.-]` used by both regular expressions. -/
def isIdChar (c : Char) : Bool :=
  ('a' ≤ c && c ≤ 'z') || ('A' ≤ c && c ≤ 'Z') || ('0' ≤ c && c ≤ '9') ||
    c = '_' || c = '.' || c = '-'

/-- Maximal run of identifier characters at the head of the list, with the
remainder; models the greedy `([a-zA-Z0-9_.-]+)` group (the character after
the run is never an identifier character, so backtracking cannot shorten
the run when the following literal starts with a non-identifier char). -/
def takeIdRun : List Char → List Char × List Char
  | [] => ([], [])
  | c :: cs =>
    if isIdChar c then
      let p := takeIdRun cs
      (c :: p.1, p.2)
    else ([], c :: cs)

/-- Match a literal pattern at the head of the input, returning the
remainder on success. -/
def dropPat : List Char → List Char → Option (List Char)
  | [], s => some s
  | _ :: _, [] => none
  | p :: ps, c :: cs => if p = c then dropPat ps cs else none

/-- Does the literal pattern occur anywhere in the input?  Models the
`.*<literal>` tail of an unanchored regular expression fragment. -/
def containsSub (pat : List Char) : List Char → Bool
  | [] => (dropPat pat []).isSome
  | c :: cs => (dropPat pat (c :: cs)).isSome || containsSub pat cs

/-- Literal `Profile Id: ` opening the profile-announcement pattern. -/
def profileIdTag : List Char := "Profile Id: ".data

/-- Literal ` (Active: ` following the captured profile id. -/
def activeTag : List Char := " (Active: ".data

/-- Literal `, Source: pom)` that must occur after the `.*` gap. -/
def sourceTag : List Char := ", Source: pom)".data

/-- Literal `[echoproperties] ` opening the property-echo pattern. -/
def echoTag : List Char := "[echoproperties] ".data

/-- Attempt the profile-announcement pattern
`Profile Id: ([a-zA-Z0-9_.-]+) \(Active: .*, Source: pom\)` at this exact
position of the line, returning the captured profile id. -/
def profileMatchAt (s : List Char) : Option (List Char) :=
  match dropPat profileIdTag s with
  | none => none
  | some rest =>
    match takeIdRun rest with
    | ([], _) => none
    | (pid, rest2) =>
      match dropPat activeTag rest2 with
      | none => none
      | some rest3 => if containsSub sourceTag rest3 then some pid else none

/-- Model of `re.search` for the profile-announcement pattern: try every
start position left to right, returning the captured id of the leftmost
match. -/
def profileSearch : List Char → Option (List Char)
  | [] => none
  | c :: cs =>
    match profileMatchAt (c :: cs) with
    | some pid => some pid
    | none => profileSearch cs

/-- Model of `re.match` for the property-echo pattern
`\[echoproperties\] ([a-zA-Z0-9_.-]+)=(.+)$`: anchored at the start of the
line; the value is the whole remainder after the first `=` following the
key and must be non-empty. -/
def propertyMatch (s : List Char) : Option (List Char × List Char) :=
  match dropPat echoTag s with
  | none => none
  | some rest =>
    match takeIdRun rest with
    | ([], _) => none
    | (key, rest2) =>
      match rest2 with
      | '=' :: v => if v = [] then none else some (key, v)
      | _ => none

/-- Python dictionary assignment `properties[k] = v`: overwrite in place
when the key is present, append otherwise. -/
def setProp : List (String × String) → String → String → List (String × String)
  | [], k, v => [(k, v)]
  | (k', v') :: rest, k, v =>
    if k' = k then (k, v) :: rest else (k', v') :: setProp rest k v

/-- Python dictionary lookup returning `none` when the key is absent. -/
def lookupProp : List (String × String) → String → Option String
  | [], _ => none
  | (k', v') :: rest, k => if k' = k then some v' else lookupProp rest k

/-- Python `properties.get(k, d)`. -/
def getProp (properties : List (String × String)) (k d : String) : String :=
  match lookupProp properties k with
  | some v => v
  | none => d

/-- Python `profiles.add(x)` on a set modelled as an insertion-ordered
duplicate-free list. -/
def addProfile (profiles : List String) (x : String) : List String :=
  if x ∈ profiles then profiles else profiles ++ [x]

/-- The body of the scanner executed for one completed line
(`src/utils/pom.py` lines 110-118): the profile pattern is tried first via
`re.search`; only when it fails is the property pattern tried via
`re.match`; lines matching neither leave the state unchanged. -/
def processLine (line : List Char) (properties : List (String × String))
    (profiles : List String) : List (String × String) × List String :=
  match profileSearch line with
  | some pid => (properties, addProfile profiles (String.mk pid))
  | none =>
    match propertyMatch line with
    | some (k, v) => (setProp properties (String.mk k) (String.mk v), profiles)
    | none => (properties, profiles)

/-- State of the character loop: the partial current line plus the
accumulated property mapping and profile set. -/
structure ScanState where
  line : List Char
  properties : List (String × String)
  profiles : List String

/-- One step of the `for ch in stdout` loop (`src/utils/pom.py` lines
105-119): a non-newline character is appended to the current line; a
newline triggers `processLine` and resets the line. -/
def scanChar (st : ScanState) (ch : Char) : ScanState :=
  if ch ≠ '\n' then { st with line := st.line ++ [ch] }
  else
    let pp := processLine st.line st.properties st.profiles
    { line := [], properties := pp.1, profiles := pp.2 }

/-- The parsing step of `determine_POM_settings` in `src/utils/pom.py`:
fold the character loop over the captured stdout, starting from an empty
line, empty property mapping and empty profile set, and return the final
mapping and profile set.  Note that a trailing partial line that was never
terminated by a newline is left in `line` and discarded, exactly as in the
source. -/
def determine_POM_settings (stdout : List Char) :
    List (String × String) × List String :=
  let final := stdout.foldl scanChar ⟨[], [], []⟩
  (final.properties, final.profiles)

/-! The second copy of the scanner, embedded from `src/oracle-tools-gui.py`
lines 137-153.  The regular-expression literals there are written as plain
(non-raw) Python strings, but `\(`, `\[` and `\]` are not recognized string
escapes, so the compiled patterns are the same as in `src/utils/pom.py`;
the two loops differ only in logging calls. -/

/-- Profile-announcement match at one position, as compiled from the
pattern literal in `src/oracle-tools-gui.py` line 143. -/
def gui_profileMatchAt (s : List Char) : Option (List Char) :=
  match dropPat profileIdTag s with
  | none => none
  | some rest =>
    match takeIdRun rest with
    | ([], _) => none
    | (pid, rest2) =>
      match dropPat activeTag rest2 with
      | none => none
      | some rest3 => if containsSub sourceTag rest3 then some pid else none

/-- Model of `re.search` for the profile-announcement pattern of
`src/oracle-tools-gui.py`. -/
def gui_profileSearch : List Char → Option (List Char)
  | [] => none
  | c :: cs =>
    match gui_profileMatchAt (c :: cs) with
    | some pid => some pid
    | none => gui_profileSearch cs

/-- Model of `re.match` for the property-echo pattern of
`src/oracle-tools-gui.py` line 148. -/
def gui_propertyMatch (s : List Char) : Option (List Char × List Char) :=
  match dropPat echoTag s with
  | none => none
  | some rest =>
    match takeIdRun rest with
    | ([], _) => none
    | (key, rest2) =>
      match rest2 with
      | '=' :: v => if v = [] then none else some (key, v)
      | _ => none

/-- Per-line step of the scanner in `src/oracle-tools-gui.py` lines
142-151. -/
def gui_processLine (line : List Char) (properties : List (String × String))
    (profiles : List String) : List (String × String) × List String :=
  match gui_profileSearch line with
  | some pid => (properties, addProfile profiles (String.mk pid))
  | none =>
    match gui_propertyMatch line with
    | some (k, v) => (setProp properties (String.mk k) (String.mk v), profiles)
    | none => (properties, profiles)

/-- One step of the `for ch in stdout` loop of `src/oracle-tools-gui.py`
lines 138-152. -/
def gui_scanChar (st : ScanState) (ch : Char) : ScanState :=
  if ch ≠ '\n' then { st with line := st.line ++ [ch] }
  else
    let pp := gui_processLine st.line st.properties st.profiles
    { line := [], properties := pp.1, profiles := pp.2 }

/-- The parsing step of `determine_POM_settings` in
`src/oracle-tools-gui.py`. -/
def gui_determine_POM_settings (stdout : List Char) :
    List (String × String) × List String :=
  let final := stdout.foldl gui_scanChar ⟨[], [], []⟩
  (final.properties, final.profiles)

/-! The rest of `process_POM` in `src/utils/pom.py` (lines 122-151). -/

/-- Failure modes of `process_POM`.  Each constructor corresponds to one
`raise`/`assert` site of `src/utils/pom.py`; `keyError` models the Python
`KeyError` raised while evaluating `properties['db.config.dir']` inside
the zero-subdirectory assertion message when that key is absent. -/
inductive PomError where
  | buildToolError (returncode : Int) (stderr : String)
  | classificationError (profiles : List String) (apex db : List String)
  | configDirNotSet
  | noSubdirectories (dbConfigDirProperty : String)
  | keyError (key : String)
  | credentialsError (dbProxyUsername dbUsername : String)
deriving DecidableEq

/-- Outcome of the `mvn ... help:all-profiles ... compile` subprocess:
exit status and the two captured text streams. -/
structure MvnResult where
  returncode : Int
  stdout : String
  stderr : String

/-- The tuple returned by `process_POM` on success
(`src/utils/pom.py` line 151). -/
structure PomResult where
  db_config_dir : String
  dbs : List String
  profiles : List String
  db_proxy_username : String
  db_username : String
deriving DecidableEq

/-- The fixed Apex bundle `['apex-export', 'apex-import']`
(`src/utils/pom.py` line 124). -/
def apex_profiles : List String := ["apex-export", "apex-import"]

/-- The fixed database bundle (`src/utils/pom.py` line 125). -/
def db_profiles : List String :=
  ["db-info", "db-install", "db-code-check", "db-test",
   "db-generate-ddl-full", "db-generate-ddl-incr"]

/-- Wrapper of `determine_POM_settings` including the subprocess exit-status check
(`src/utils/pom.py` lines 94-101): a non-zero status raises before any
parsing. -/
def determine_POM_settingsE (mvn : MvnResult) :
    Except PomError (List (String × String) × List String) :=
  if mvn.returncode = 0 then Except.ok (determine_POM_settings mvn.stdout.data)
  else Except.error (PomError.buildToolError mvn.returncode mvn.stderr)

/-- Classification of the discovered profile set (`src/utils/pom.py` lines
126-131): the Apex superset test is made first, then the database superset
test, else the classification exception is raised. -/
def classify (profiles : List String) : Except PomError (List String) :=
  if ∀ x ∈ apex_profiles, x ∈ profiles then Except.ok apex_profiles
  else if ∀ x ∈ db_profiles, x ∈ profiles then Except.ok db_profiles
  else Except.error (PomError.classificationError profiles apex_profiles db_profiles)

/-- Python `s.replace(old, new)` specialized to the two-character patterns
used by the source: scan left to right, replacing non-overlapping
occurrences of the two-character pattern `a b`. -/
def replace2 (a b : Char) (rep : List Char) : List Char → List Char
  | x :: y :: rest =>
    if x = a ∧ y = b then rep ++ replace2 a b rep rest
    else x :: replace2 a b rep (y :: rest)
  | s => s

/-- The escape normalization applied to the `db.config.dir` property value
(`src/utils/pom.py` line 134): `.replace('\\:', ':').replace('\\\\', '\\')`
— first every backslash-colon becomes a colon, then every doubled
backslash becomes a single backslash. -/
def normalize_db_config_dir (v : String) : String :=
  String.mk (replace2 '\\' '\\' ['\\'] (replace2 '\\' ':' [':'] v.data))

/-- Config-directory resolution (`src/utils/pom.py` lines 132-134): a
non-empty caller-supplied value is kept unchanged; otherwise the
`db.config.dir` property (defaulting to the empty string) is normalized. -/
def resolveConfigDir (db_config_dir : String)
    (properties : List (String × String)) : String :=
  if db_config_dir = "" then
    normalize_db_config_dir (getProp properties "db.config.dir" "")
  else db_config_dir

/-- The tail of `process_POM` after classification (`src/utils/pom.py`
lines 132-151): resolve the directory, assert it non-empty, list the
subdirectories (an `iterdir` exception is swallowed, leaving the empty
list), assert the listing non-empty — where building the assertion message
evaluates `properties['db.config.dir']` and hence raises `KeyError` when
the key is absent — then read the two credential properties and assert at
least one non-empty. -/
def process_POM_resolve (properties : List (String × String))
    (bundle : List String) (db_config_dir0 : String)
    (fs : String → Option (List String)) : Except PomError PomResult :=
  let db_config_dir := resolveConfigDir db_config_dir0 properties
  if db_config_dir = "" then Except.error PomError.configDirNotSet
  else
    let dbs := (fs db_config_dir).getD []
    if dbs = [] then
      match lookupProp properties "db.config.dir" with
      | some v => Except.error (PomError.noSubdirectories v)
      | none => Except.error (PomError.keyError "db.config.dir")
    else
      let db_proxy_username := getProp properties "db.proxy.username" ""
      let db_username := getProp properties "db.username" ""
      if db_proxy_username = "" ∧ db_username = "" then
        Except.error (PomError.credentialsError db_proxy_username db_username)
      else
        Except.ok ⟨db_config_dir, dbs, bundle, db_proxy_username, db_username⟩

/-- Embedding of `process_POM` of `src/utils/pom.py` (lines 79-151), as a function of
the subprocess outcome `mvn`, the caller-supplied directory override
(empty string for `None`) and the filesystem listing `fs`. -/
def process_POM (mvn : MvnResult) (db_config_dir : String)
    (fs : String → Option (List String)) : Except PomError PomResult :=
  match determine_POM_settingsE mvn with
  | Except.error e => Except.error e
  | Except.ok pp =>
    match classify pp.2 with
    | Except.error e => Except.error e
    | Except.ok bundle => process_POM_resolve pp.1 bundle db_config_dir fs

/-! Specification-side view of the scanner: the stdout text split into
newline-terminated lines plus a trailing remainder, and folds over those
lines.  These are used to state what the character loop computes. -/

/-- Split the input into its `\n`-terminated lines (without the
terminator) and the trailing unterminated remainder, starting from a
partial current line `cur`. -/
def splitTermAux : List Char → List Char → List (List Char) × List Char
  | cur, [] => ([], cur)
  | cur, c :: cs =>
    if c = '\n' then
      (cur :: (splitTermAux [] cs).1, (splitTermAux [] cs).2)
    else splitTermAux (cur ++ [c]) cs

/-- The `\n`-terminated lines of the input and its trailing remainder. -/
def splitTerminated (s : List Char) : List (List Char) × List Char :=
  splitTermAux [] s

/-- Fold the per-line step over a list of complete lines. -/
def lineFold (pp : List (String × String) × List String)
    (ls : List (List Char)) : List (String × String) × List String :=
  ls.foldl (fun pp l => processLine l pp.1 pp.2) pp

/-- The character loop, started on a partial line `cur`, computes exactly
the per-line fold over the newline-terminated lines, and leaves the
unterminated remainder in the `line` field. -/
theorem scan_lines (s : List Char) :
    ∀ (cur : List Char) (props : List (String × String)) (profs : List String),
      List.foldl scanChar ⟨cur, props, profs⟩ s =
        { line := (splitTermAux cur s).2,
          properties := (lineFold (props, profs) (splitTermAux cur s).1).1,
          profiles := (lineFold (props, profs) (splitTermAux cur s).1).2 } := by
  induction s with
  | nil => intro cur props profs; rfl
  | cons c cs ih =>
    intro cur props profs
    by_cases hc : c = '\n'
    · subst hc
      show List.foldl scanChar (scanChar ⟨cur, props, profs⟩ '\n') cs = _
      have h1 : scanChar ⟨cur, props, profs⟩ '\n' =
          ⟨[], (processLine cur props profs).1, (processLine cur props profs).2⟩ := rfl
      rw [h1, ih]
      simp [splitTermAux, lineFold]
    · show List.foldl scanChar (scanChar ⟨cur, props, profs⟩ c) cs = _
      have h1 : scanChar ⟨cur, props, profs⟩ c = ⟨cur ++ [c], props, profs⟩ := by
        simp [scanChar, hc]
      rw [h1, ih]
      simp [splitTermAux, hc]

/-- The parsing step equals the per-line fold over the newline-terminated
lines only: the trailing unterminated line is discarded. -/
theorem determine_eq_lineFold (s : List Char) :
    determine_POM_settings s = lineFold ([], []) (splitTerminated s).1 := by
  unfold determine_POM_settings splitTerminated
  rw [scan_lines s [] [] []]

/-- Appending a final newline turns the trailing remainder into one more
complete line and leaves no remainder. -/
theorem splitTermAux_append_newline (s : List Char) :
    ∀ cur, splitTermAux cur (s ++ ['\n']) =
      ((splitTermAux cur s).1 ++ [(splitTermAux cur s).2], []) := by
  induction s with
  | nil => intro cur; rfl
  | cons c cs ih =>
    intro cur
    by_cases hc : c = '\n'
    · subst hc
      simp [splitTermAux, ih]
    · simp [splitTermAux, hc, ih]

/-- Last value written for a key over a list of lines, threading an
accumulator; models the specification sentence that a later property echo
for the same key overwrites an earlier one.  A line adds a value for `k`
exactly when the profile pattern fails, the property pattern succeeds and
the matched key is `k`. -/
def lastEcho (k : String) : Option String → List (List Char) → Option String
  | acc, [] => acc
  | acc, l :: ls =>
    lastEcho k
      (match profileSearch l with
       | some _ => acc
       | none =>
         match propertyMatch l with
         | some (k0, v0) =>
           if String.mk k0 = k then some (String.mk v0) else acc
         | none => acc) ls

/-- Lookup after a dictionary write: the written key reads back the new
value, every other key is unaffected. -/
theorem lookupProp_setProp (props : List (String × String)) (k0 v k : String) :
    lookupProp (setProp props k0 v) k =
      if k0 = k then some v else lookupProp props k := by
  induction props with
  | nil => simp [setProp, lookupProp]
  | cons q rest ih =>
    obtain ⟨k', v'⟩ := q
    by_cases h : k' = k0
    · subst h
      by_cases hk : k' = k
      · subst hk; simp [setProp, lookupProp]
      · simp [setProp, lookupProp, hk]
    · by_cases hk : k' = k
      · subst hk
        have : ¬ k0 = k' := fun hc => h hc.symm
        simp [setProp, lookupProp, h, this]
      · simp [setProp, lookupProp, h, hk, ih]

/-- Looking a key up after the per-line fold yields the last value echoed
for that key, falling back to whatever the mapping held before. -/
theorem lookup_lineFold (ls : List (List Char)) :
    ∀ (pp : List (String × String) × List String) (k : String),
      lookupProp (lineFold pp ls).1 k = lastEcho k (lookupProp pp.1 k) ls := by
  induction ls with
  | nil => intro pp k; rfl
  | cons l ls ih =>
    intro pp k
    have step : lineFold pp (l :: ls) = lineFold (processLine l pp.1 pp.2) ls := rfl
    rw [step]
    cases hps : profileSearch l with
    | some pid =>
      have heq : processLine l pp.1 pp.2 = (pp.1, addProfile pp.2 (String.mk pid)) := by
        simp [processLine, hps]
      rw [heq, ih]
      simp [lastEcho, hps]
    | none =>
      cases hpm : propertyMatch l with
      | none =>
        have heq : processLine l pp.1 pp.2 = (pp.1, pp.2) := by
          simp [processLine, hps, hpm]
        rw [heq, ih]
        simp [lastEcho, hps, hpm]
      | some kv =>
        obtain ⟨k0, v0⟩ := kv
        have heq : processLine l pp.1 pp.2 =
            (setProp pp.1 (String.mk k0) (String.mk v0), pp.2) := by
          simp [processLine, hps, hpm]
        rw [heq, ih]
        simp only [lookupProp_setProp]
        simp [lastEcho, hps, hpm]

/-- A successful property match always captures a non-empty value: the
`(.+)$` group needs at least one character after the `=`. -/
theorem propertyMatch_val_ne_nil :
    ∀ {l k0 v0 : List Char}, propertyMatch l = some (k0, v0) → v0 ≠ [] := by
  intro l k0 v0 h
  unfold propertyMatch at h
  split at h
  · cases h
  · split at h
    · cases h
    · split at h
      · split at h
        · cases h
        · rename_i hv
          obtain ⟨-, rfl⟩ : _ ∧ _ = v0 := by
            simpa using h
          exact hv
      · cases h

/-- A string built from a non-empty character list is not the empty
string. -/
theorem stringMk_ne_empty {v : List Char} (h : v ≠ []) : String.mk v ≠ "" :=
  fun hc => h (congrArg String.data hc)

/-- Membership after a dictionary write: the pair is the one just written
or was already present. -/
theorem mem_setProp :
    ∀ {props : List (String × String)} {k v : String} {p : String × String},
      p ∈ setProp props k v → p = (k, v) ∨ p ∈ props := by
  intro props
  induction props with
  | nil =>
    intro k v p hp
    simp [setProp] at hp
    exact Or.inl hp
  | cons q rest ih =>
    intro k v p hp
    obtain ⟨k', v'⟩ := q
    by_cases h : k' = k
    · simp [setProp, h] at hp
      rcases hp with rfl | hp
      · exact Or.inl rfl
      · exact Or.inr (List.mem_cons_of_mem _ hp)
    · simp only [setProp, if_neg h, List.mem_cons] at hp
      rcases hp with rfl | hp
      · exact Or.inr (List.mem_cons_self _ _)
      · rcases ih hp with h1 | h2
        · exact Or.inl h1
        · exact Or.inr (List.mem_cons_of_mem _ h2)

/-- The per-line fold preserves the invariant that every stored property
value is a non-empty string. -/
theorem lineFold_values_ne_empty (ls : List (List Char)) :
    ∀ (pp : List (String × String) × List String),
      (∀ p ∈ pp.1, p.2 ≠ "") →
      ∀ p ∈ (lineFold pp ls).1, p.2 ≠ "" := by
  induction ls with
  | nil => intro pp hinv; exact hinv
  | cons l ls ih =>
    intro pp hinv
    have step : lineFold pp (l :: ls) = lineFold (processLine l pp.1 pp.2) ls := rfl
    rw [step]
    cases hps : profileSearch l with
    | some pid =>
      have heq : processLine l pp.1 pp.2 = (pp.1, addProfile pp.2 (String.mk pid)) := by
        simp [processLine, hps]
      rw [heq]
      exact ih _ hinv
    | none =>
      cases hpm : propertyMatch l with
      | none =>
        have heq : processLine l pp.1 pp.2 = (pp.1, pp.2) := by
          simp [processLine, hps, hpm]
        rw [heq]
        exact ih _ hinv
      | some kv =>
        obtain ⟨k0, v0⟩ := kv
        have heq : processLine l pp.1 pp.2 =
            (setProp pp.1 (String.mk k0) (String.mk v0), pp.2) := by
          simp [processLine, hps, hpm]
        rw [heq]
        refine ih _ ?_
        intro p hp
        rcases mem_setProp hp with rfl | hmem
        · exact stringMk_ne_empty (propertyMatch_val_ne_nil hpm)
        · exact hinv p hmem

/-- Field values of a successful run of the post-classification tail of
`process_POM`. -/
theorem process_POM_resolve_ok
    {properties : List (String × String)} {bundle : List String}
    {d : String} {fs : String → Option (List String)} {r : PomResult}
    (h : process_POM_resolve properties bundle d fs = Except.ok r) :
    r.db_config_dir = resolveConfigDir d properties ∧
    r.dbs = (fs (resolveConfigDir d properties)).getD [] ∧
    r.profiles = bundle ∧
    r.db_proxy_username = getProp properties "db.proxy.username" "" ∧
    r.db_username = getProp properties "db.username" "" := by
  simp only [process_POM_resolve] at h
  split at h
  · cases h
  · split at h
    · split at h <;> cases h
    · split at h
      · cases h
      · injection h with h'
        subst h'
        exact ⟨rfl, rfl, rfl, rfl, rfl⟩

/-- Reduction of `process_POM` on a zero exit status: the build-tool check
passes and the run continues with classification of the parsed profile
set. -/
theorem process_POM_eq_of_returncode_zero (mvn : MvnResult) (d : String)
    (fs : String → Option (List String)) (h0 : mvn.returncode = 0) :
    process_POM mvn d fs =
      match classify (determine_POM_settings mvn.stdout.data).2 with
      | Except.error e => Except.error e
      | Except.ok bundle =>
        process_POM_resolve (determine_POM_settings mvn.stdout.data).1
          bundle d fs := by
  unfold process_POM determine_POM_settingsE
  rw [if_pos h0]

/-! Concrete introspection runs used as witnesses. -/

/-- A run with empty output: no profiles, no properties. -/
def mvn0 : MvnResult := ⟨0, "", ""⟩

/-- A filesystem in which every listing attempt raises. -/
def fsNone : String → Option (List String) := fun _ => none

/-- Captured stdout announcing both the Apex and the full database bundle,
a config directory and a username. -/
def apexStdout : String :=
  "Profile Id: apex-export (Active: false , Source: pom)\n" ++
  "Profile Id: apex-import (Active: false , Source: pom)\n" ++
  "Profile Id: db-info (Active: false , Source: pom)\n" ++
  "Profile Id: db-install (Active: false , Source: pom)\n" ++
  "Profile Id: db-code-check (Active: false , Source: pom)\n" ++
  "Profile Id: db-test (Active: false , Source: pom)\n" ++
  "Profile Id: db-generate-ddl-full (Active: false , Source: pom)\n" ++
  "Profile Id: db-generate-ddl-incr (Active: false , Source: pom)\n" ++
  "[echoproperties] db.config.dir=/opt/conf\n" ++
  "[echoproperties] db.username=alice\n"

/-- The run producing `apexStdout`. -/
def mvnApex : MvnResult := ⟨0, apexStdout, ""⟩

/-- A filesystem in which `/opt/conf` has two subdirectories. -/
def fsEx : String → Option (List String) :=
  fun p => if p = "/opt/conf" then some ["dev", "prod"] else none

/-- Captured stdout announcing only the database bundle, in scrambled
order, with a config directory and a proxy username. -/
def dbStdout : String :=
  "Profile Id: db-test (Active: false , Source: pom)\n" ++
  "Profile Id: db-generate-ddl-incr (Active: false , Source: pom)\n" ++
  "Profile Id: db-info (Active: false , Source: pom)\n" ++
  "Profile Id: db-install (Active: false , Source: pom)\n" ++
  "Profile Id: db-generate-ddl-full (Active: false , Source: pom)\n" ++
  "Profile Id: db-code-check (Active: false , Source: pom)\n" ++
  "[echoproperties] db.config.dir=/opt/conf\n" ++
  "[echoproperties] db.proxy.username=proxyacct\n"

/-- The run producing `dbStdout`. -/
def mvnDb : MvnResult := ⟨0, dbStdout, ""⟩

/-- Captured stdout announcing the database bundle and a username but no
`db.config.dir` property echo. -/
def noDirStdout : String :=
  "Profile Id: db-info (Active: false , Source: pom)\n" ++
  "Profile Id: db-install (Active: false , Source: pom)\n" ++
  "Profile Id: db-code-check (Active: false , Source: pom)\n" ++
  "Profile Id: db-test (Active: false , Source: pom)\n" ++
  "Profile Id: db-generate-ddl-full (Active: false , Source: pom)\n" ++
  "Profile Id: db-generate-ddl-incr (Active: false , Source: pom)\n" ++
  "[echoproperties] db.username=alice\n"

/-- The run producing `noDirStdout`. -/
def mvnNoDir : MvnResult := ⟨0, noDirStdout, ""⟩

/-- A filesystem in which every directory exists but has zero
subdirectories. -/
def fsEmpty : String → Option (List String) := fun _ => some []

/-- A filesystem in which the caller-supplied override directory has one
subdirectory. -/
def fsOv : String → Option (List String) :=
  fun p => if p = "/override" then some ["cfg"] else none

/-! Claim theorems. -/

/-- C1: when the extracted profile set is a superset of neither the Apex
bundle nor the database bundle, `process_POM` fails with the
classification error carrying the discovered set and both candidate
bundles (and hence never returns a result tuple). -/
theorem c1_classification_failure (mvn : MvnResult) (d : String)
    (fs : String → Option (List String)) (h0 : mvn.returncode = 0)
    (hA : ¬ ∀ x ∈ apex_profiles, x ∈ (determine_POM_settings mvn.stdout.data).2)
    (hD : ¬ ∀ x ∈ db_profiles, x ∈ (determine_POM_settings mvn.stdout.data).2) :
    process_POM mvn d fs =
      Except.error (PomError.classificationError
        (determine_POM_settings mvn.stdout.data).2 apex_profiles db_profiles) := by
  rw [process_POM_eq_of_returncode_zero mvn d fs h0]
  unfold classify
  rw [if_neg hA, if_neg hD]

/-- Witness for C1: the empty run extracts the empty profile set, a
superset of neither bundle, and fails with the classification error. -/
theorem c1_witness :
    process_POM mvn0 "" fsNone =
      Except.error (PomError.classificationError [] apex_profiles db_profiles) :=
  c1_classification_failure mvn0 "" fsNone rfl (by decide) (by decide)

/-- C2: when the extracted profile set is a superset of the Apex bundle —
also when it is simultaneously a superset of the database bundle — the
classification returns the Apex bundle in its fixed declared order, and
any result tuple of `process_POM` carries that bundle. -/
theorem c2_apex_priority (mvn : MvnResult) (d : String)
    (fs : String → Option (List String)) (h0 : mvn.returncode = 0)
    (hsup : ∀ x ∈ apex_profiles, x ∈ (determine_POM_settings mvn.stdout.data).2) :
    classify (determine_POM_settings mvn.stdout.data).2 = Except.ok apex_profiles ∧
    (process_POM mvn d fs).map PomResult.profiles =
      (process_POM mvn d fs).map (fun _ => apex_profiles) := by
  have hcl : classify (determine_POM_settings mvn.stdout.data).2 =
      Except.ok apex_profiles := by
    unfold classify
    rw [if_pos hsup]
  refine ⟨hcl, ?_⟩
  rw [process_POM_eq_of_returncode_zero mvn d fs h0, hcl]
  cases hr : process_POM_resolve (determine_POM_settings mvn.stdout.data).1
      apex_profiles d fs with
  | error e => simp [Except.map, hr]
  | ok r => simp [Except.map, hr, (process_POM_resolve_ok hr).2.2.1]

set_option maxRecDepth 200000 in
/-- Witness for C2: a run announcing both bundles is classified as Apex
and its result tuple carries the Apex bundle. -/
theorem c2_witness :
    classify (determine_POM_settings mvnApex.stdout.data).2 =
      Except.ok apex_profiles ∧
    (process_POM mvnApex "" fsEx).map PomResult.profiles =
      (process_POM mvnApex "" fsEx).map (fun _ => apex_profiles) :=
  c2_apex_priority mvnApex "" fsEx rfl (by decide)

/-- C3: when the extracted profile set contains all six database-bundle
profiles but is not a superset of the Apex bundle, the classification
returns the database bundle in its fixed declared order — independent of
announcement order, which the set never records — any result tuple of
`process_POM` carries that bundle, and the database bundle is not the Apex
bundle. -/
theorem c3_db_bundle (mvn : MvnResult) (d : String)
    (fs : String → Option (List String)) (h0 : mvn.returncode = 0)
    (hdb : ∀ x ∈ db_profiles, x ∈ (determine_POM_settings mvn.stdout.data).2)
    (hna : ¬ ∀ x ∈ apex_profiles, x ∈ (determine_POM_settings mvn.stdout.data).2) :
    classify (determine_POM_settings mvn.stdout.data).2 = Except.ok db_profiles ∧
    (process_POM mvn d fs).map PomResult.profiles =
      (process_POM mvn d fs).map (fun _ => db_profiles) ∧
    db_profiles ≠ apex_profiles := by
  have hcl : classify (determine_POM_settings mvn.stdout.data).2 =
      Except.ok db_profiles := by
    unfold classify
    rw [if_neg hna, if_pos hdb]
  refine ⟨hcl, ?_, by decide⟩
  rw [process_POM_eq_of_returncode_zero mvn d fs h0, hcl]
  cases hr : process_POM_resolve (determine_POM_settings mvn.stdout.data).1
      db_profiles d fs with
  | error e => simp [Except.map, hr]
  | ok r => simp [Except.map, hr, (process_POM_resolve_ok hr).2.2.1]

set_option maxRecDepth 200000 in
/-- Witness for C3: a run announcing the six database profiles in
scrambled order is classified as the database bundle in fixed order. -/
theorem c3_witness :
    classify (determine_POM_settings mvnDb.stdout.data).2 =
      Except.ok db_profiles ∧
    (process_POM mvnDb "" fsEx).map PomResult.profiles =
      (process_POM mvnDb "" fsEx).map (fun _ => db_profiles) ∧
    db_profiles ≠ apex_profiles :=
  c3_db_bundle mvnDb "" fsEx rfl (by decide) (by decide)

set_option maxRecDepth 200000 in
/-- C4 (failing input): with the six database profiles announced, a
username echoed, no `db.config.dir` property echo, a non-empty
caller-supplied override directory and a resolved directory with zero
subdirectory entries, `process_POM` fails with the `KeyError` raised while
evaluating `properties['db.config.dir']` inside the zero-subdirectory
assertion message — not with the assertion's own `ConfigError` that the
claim states. -/
theorem c4_keyerror_on_missing_property :
    process_POM mvnNoDir "/opt/conf" fsEmpty =
      Except.error (PomError.keyError "db.config.dir") := rfl

/-- C5 (counterexample): a trailing partial line lacking a final newline
is not processed, so omitting versus appending the final newline changes
the extracted pair — on `"[echoproperties] a=b"` nothing is extracted,
while the newline-terminated text yields the property. -/
theorem c5_counterexample :
    determine_POM_settings ("[echoproperties] a=b").data ≠
      determine_POM_settings ("[echoproperties] a=b\n").data := by decide

/-- C5 (amended): the stdout scanner processes exactly the
newline-terminated lines — a trailing partial line lacking a final `\n`
terminator is discarded, and appending the final newline processes exactly
that one additional line. -/
theorem c5_terminated_lines_only (s : List Char) :
    determine_POM_settings s = lineFold ([], []) (splitTerminated s).1 ∧
    determine_POM_settings (s ++ ['\n']) =
      lineFold ([], []) ((splitTerminated s).1 ++ [(splitTerminated s).2]) := by
  refine ⟨determine_eq_lineFold s, ?_⟩
  rw [determine_eq_lineFold]
  unfold splitTerminated
  rw [splitTermAux_append_newline]

/-- C6: every result tuple of `process_POM` carries, as its config
directory, the non-empty caller-supplied override unchanged, and otherwise
the `db.config.dir` property value normalized by turning each
backslash-colon into a colon and then each doubled backslash into a single
backslash; the normalization maps `C\:\\tmp\\conf` to `C:\tmp\conf`. -/
theorem c6_config_dir_resolution (mvn : MvnResult) (d : String)
    (fs : String → Option (List String)) (h0 : mvn.returncode = 0) :
    (process_POM mvn d fs).map PomResult.db_config_dir =
      (process_POM mvn d fs).map (fun _ =>
        if d = "" then
          normalize_db_config_dir
            (getProp (determine_POM_settings mvn.stdout.data).1 "db.config.dir" "")
        else d) ∧
    normalize_db_config_dir "C\\:\\\\tmp\\\\conf" = "C:\\tmp\\conf" := by
  refine ⟨?_, by decide⟩
  rw [process_POM_eq_of_returncode_zero mvn d fs h0]
  cases hcl : classify (determine_POM_settings mvn.stdout.data).2 with
  | error e => simp [Except.map, hcl]
  | ok bundle =>
    cases hr : process_POM_resolve (determine_POM_settings mvn.stdout.data).1
        bundle d fs with
    | error e => simp [Except.map, hcl, hr]
    | ok r =>
      have hd := (process_POM_resolve_ok hr).1
      simp [Except.map, hcl, hr, hd]
      rfl

set_option maxRecDepth 200000 in
/-- Witness for C6: with a non-empty override the result tuple carries the
override unchanged, and the normalization example holds. -/
theorem c6_witness :
    (process_POM mvnApex "/override" fsOv).map PomResult.db_config_dir =
      (process_POM mvnApex "/override" fsOv).map (fun _ =>
        if ("/override" : String) = "" then
          normalize_db_config_dir
            (getProp (determine_POM_settings mvnApex.stdout.data).1
              "db.config.dir" "")
        else "/override") ∧
    normalize_db_config_dir "C\\:\\\\tmp\\\\conf" = "C:\\tmp\\conf" :=
  c6_config_dir_resolution mvnApex "/override" fsOv rfl

/-- C7: in a run that passes the build-tool, classification, directory and
subdirectory checks, `process_POM` fails with the credentials error
exactly when both `db.proxy.username` and `db.username` (read with the
empty string as default for an absent key) are empty, and every result
tuple carries exactly that pair of property values. -/
theorem c7_credentials (mvn : MvnResult) (d : String)
    (fs : String → Option (List String)) (h0 : mvn.returncode = 0)
    (hclass : ∃ b, classify (determine_POM_settings mvn.stdout.data).2 =
      Except.ok b)
    (hdir : resolveConfigDir d (determine_POM_settings mvn.stdout.data).1 ≠ "")
    (hdbs : (fs (resolveConfigDir d (determine_POM_settings mvn.stdout.data).1)).getD []
      ≠ []) :
    (process_POM mvn d fs = Except.error (PomError.credentialsError "" "") ↔
      (getProp (determine_POM_settings mvn.stdout.data).1 "db.proxy.username" "" = "" ∧
       getProp (determine_POM_settings mvn.stdout.data).1 "db.username" "" = "")) ∧
    (process_POM mvn d fs).map (fun r => (r.db_proxy_username, r.db_username)) =
      (process_POM mvn d fs).map (fun _ =>
        (getProp (determine_POM_settings mvn.stdout.data).1 "db.proxy.username" "",
         getProp (determine_POM_settings mvn.stdout.data).1 "db.username" "")) := by
  obtain ⟨b, hcl⟩ := hclass
  rw [process_POM_eq_of_returncode_zero mvn d fs h0, hcl]
  simp only [process_POM_resolve]
  rw [if_neg hdir, if_neg hdbs]
  by_cases hcred :
      getProp (determine_POM_settings mvn.stdout.data).1 "db.proxy.username" "" = "" ∧
      getProp (determine_POM_settings mvn.stdout.data).1 "db.username" "" = ""
  · rw [if_pos hcred]
    refine ⟨?_, by simp [Except.map]⟩
    simp [hcred.1, hcred.2]
  · rw [if_neg hcred]
    refine ⟨?_, by simp [Except.map]⟩
    simp [hcred]

set_option maxRecDepth 400000 in
/-- Witness for C7: the run echoing `db.username=alice` and no proxy
username passes all earlier checks, does not fail with the credentials
error, and its result tuple carries the credentials pair
`("", "alice")`. -/
theorem c7_witness :
    (process_POM mvnApex "" fsEx = Except.error (PomError.credentialsError "" "") ↔
      (getProp (determine_POM_settings mvnApex.stdout.data).1
        "db.proxy.username" "" = "" ∧
       getProp (determine_POM_settings mvnApex.stdout.data).1
        "db.username" "" = "")) ∧
    (process_POM mvnApex "" fsEx).map (fun r => (r.db_proxy_username, r.db_username)) =
      (process_POM mvnApex "" fsEx).map (fun _ => ("", "alice")) :=
  c7_credentials mvnApex "" fsEx rfl ⟨apex_profiles, rfl⟩ (by decide) (by decide)

/-- C8: the property mapping built by the scanner maps each key to exactly
the value of the last property-echo line for that key in stream order (a
later echo overwrites an earlier one); lines for other keys and
non-property lines leave that key's value untouched. -/
theorem c8_last_echo_wins (s : List Char) (k : String) :
    lookupProp (determine_POM_settings s).1 k =
      lastEcho k none (splitTerminated s).1 := by
  rw [determine_eq_lineFold]
  exact lookup_lineFold (splitTerminated s).1 ([], []) k

/-- C9: every value stored in the property mapping built by the scanner is
a non-empty string — a property-echo line with nothing after the `=` fails
the `(.+)` group and inserts nothing. -/
theorem c9_values_nonempty (s : List Char) (k v : String)
    (h : (k, v) ∈ (determine_POM_settings s).1) : v ≠ "" := by
  rw [determine_eq_lineFold] at h
  exact lineFold_values_ne_empty (splitTerminated s).1 ([], []) (by simp) (k, v) h

/-- Witness for C9: the pair extracted from `[echoproperties] a=b` is in
the mapping and its value is non-empty. -/
theorem c9_witness :
    (("a" : String), ("b" : String)) ∈
      (determine_POM_settings ("[echoproperties] a=b\n").data).1 ∧
    ("b" : String) ≠ "" :=
  ⟨by decide, c9_values_nonempty ("[echoproperties] a=b\n").data "a" "b" (by decide)⟩

/-- The two profile-pattern searches agree on every line. -/
theorem profileSearch_eq_gui (l : List Char) :
    profileSearch l = gui_profileSearch l := by
  induction l with
  | nil => rfl
  | cons c cs ih =>
    simp only [profileSearch, gui_profileSearch]
    rw [show gui_profileMatchAt (c :: cs) = profileMatchAt (c :: cs) from rfl]
    cases profileMatchAt (c :: cs) with
    | none => exact ih
    | some pid => rfl

/-- The two per-line steps agree on every line and state. -/
theorem gui_processLine_eq (l : List Char) (props : List (String × String))
    (profs : List String) :
    gui_processLine l props profs = processLine l props profs := by
  unfold gui_processLine processLine
  rw [← profileSearch_eq_gui]
  rw [show gui_propertyMatch l = propertyMatch l from rfl]

/-- The two character-loop steps agree on every state and character. -/
theorem gui_scanChar_fun_eq : gui_scanChar = scanChar := by
  funext st ch
  unfold gui_scanChar scanChar
  rw [gui_processLine_eq]

/-- C10: the scanner embedded from `src/utils/pom.py` and the one embedded
from `src/oracle-tools-gui.py` are extensionally equal — on every captured
stdout they produce the same property mapping and the same profile set. -/
theorem c10_parsers_agree (s : List Char) :
    determine_POM_settings s = gui_determine_POM_settings s := by
  unfold determine_POM_settings gui_determine_POM_settings
  rw [gui_scanChar_fun_eq]

end OracleToolsGui
